import Mathlib

/-!
Verification of the auto-reconnecting MCP stdio proxy.

This file shallowly embeds the reconnecting server connection of
`lib/client/mcp/reconnect.go` and the fan-out message writer of
`lib/utils/mcputils/writer.go`, and proves the specified properties of the
reconnect and caching logic against those definitions.

Stateful Go methods become pure functions on an explicit connection state;
the I/O performed on a freshly dialed upstream (frame writes, the single
frame read during replay, closing) is recorded as an explicit event list;
outcomes of the external world (dial success, write failures, the replayed
reply frame) are supplied through an oracle record.
-/

/-- Identifier of a JSON-RPC request. Modelled from the spec: the concrete
mcp-go RequestId type is not under src/; the spec states that ids are strings
or numbers and are compared by their canonical string form, with the number 1
distinct from the string "1". -/
inductive RequestId where
  | num (n : Int)
  | str (s : String)
deriving DecidableEq

/-- Canonical string form of a request id, used for every id comparison in the
embedded code (`ID.String()` in reconnect.go). The variant tag keeps numeric
and string ids distinct, as the spec requires. -/
def RequestId.toString : RequestId → String
  | .num n => "number:" ++ ToString.toString n
  | .str s => "string:" ++ s

/-- A JSON-RPC request: id plus method (params are never inspected by the
embedded code and are omitted). -/
structure JSONRPCRequest where
  id : RequestId
  method : String
deriving DecidableEq

/-- A JSON-RPC notification: method only (no id). -/
structure JSONRPCNotification where
  method : String
deriving DecidableEq

/-- The error object optionally carried by a JSON-RPC response. -/
structure ResponseError where
  code : Int
  message : String
deriving DecidableEq

/-- Server identity (mcp.Implementation): name and version. -/
structure Implementation where
  name : String
  version : String
deriving DecidableEq

/-- The initialize result, of which the embedded code only inspects the
serverInfo field. -/
structure InitializeResult where
  serverInfo : Implementation
deriving DecidableEq

/-- The result payload of a response, as far as the embedded code can observe
it: either a payload that parses as an initialize result, or some other
payload. -/
inductive ResultPayload where
  | initResult (r : InitializeResult)
  | otherResult
deriving DecidableEq

/-- A JSON-RPC response: id, optional error, result payload. -/
structure JSONRPCResponse where
  id : RequestId
  error : Option ResponseError
  result : ResultPayload
deriving DecidableEq

/-- Modelled from the spec: `mcputils.JSONRPCResponse.GetInitializeResult` is
repository code not under src/. Per the spec, a response carries a valid
initialize result (with serverInfo) or fails to parse as one. -/
def JSONRPCResponse.getInitializeResult (resp : JSONRPCResponse) :
    Except String InitializeResult :=
  match resp.result with
  | .initResult r => .ok r
  | .otherResult => .error "response does not carry an initialize result"

/-- A JSON-RPC message: request, notification, or response. -/
inductive JSONRPCMessage where
  | request (m : JSONRPCRequest)
  | notification (m : JSONRPCNotification)
  | response (m : JSONRPCResponse)
deriving DecidableEq

/-- Method name of the initialize request (mcp.MethodInitialize). -/
def MethodInitialize : String := "initialize"

/-- Method name of the initialized notification
(mcputils.MethodNotificationInitialized). -/
def MethodNotificationInitialized : String := "notifications/initialized"

/-- Which kind of writer is installed as the current server request writer:
the first-connect fan-out writer (cache slot then raw upstream), or the raw
upstream writer installed after a successful replay. -/
inductive WriterKind where
  | fanOut
  | raw
deriving DecidableEq

/-- The mutex-protected state of serverConnWithAutoReconnect
(reconnect.go lines 123-133). -/
structure ConnState where
  serverRequestWriter : Option WriterKind
  replayOnNextConn : Bool
  initRequest : Option JSONRPCRequest
  initResponse : Option InitializeResult
  initNotification : Option JSONRPCNotification
deriving DecidableEq

/-- reconnect.go lines 214-216: the cached triple is complete. -/
def initializedLocked (st : ConnState) : Bool :=
  st.initRequest.isSome && st.initResponse.isSome && st.initNotification.isSome

/-- reconnect.go lines 269-297, cacheMessageLocked: offer a message to the
initialize cache. Logging is dropped; everything else is transcribed. -/
def cacheMessageLocked (st : ConnState) (msg : JSONRPCMessage) : ConnState :=
  if initializedLocked st then st
  else
    match msg with
    | .request m =>
        if st.initRequest = none ∧ m.method = MethodInitialize then
          { st with initRequest := some m }
        else st
    | .notification m =>
        if st.initNotification = none ∧ m.method = MethodNotificationInitialized then
          { st with initNotification := some m }
        else st
    | .response m =>
        match st.initRequest with
        | some req =>
            if st.initResponse = none ∧ req.id.toString = m.id.toString then
              match m.getInitializeResult with
              | .error _ => st
              | .ok r => { st with initResponse := some r }
          else st
        | none => st

theorem cacheMessage_initRequest_mono (st : ConnState) (msg : JSONRPCMessage)
    (q : JSONRPCRequest) (h : st.initRequest = some q) :
    (cacheMessageLocked st msg).initRequest = some q := by
  unfold cacheMessageLocked
  split
  · exact h
  · cases msg with
    | request m =>
        simp only []
        split
        · next hc => exact absurd h (by simp [hc.1])
        · exact h
    | notification m =>
        simp only []
        split
        · exact h
        · exact h
    | response m =>
        simp only []
        split
        · split
          · split
            · exact h
            · exact h
          · exact h
        · exact h

theorem cacheMessage_initResponse_mono (st : ConnState) (msg : JSONRPCMessage)
    (r : InitializeResult) (h : st.initResponse = some r) :
    (cacheMessageLocked st msg).initResponse = some r := by
  unfold cacheMessageLocked
  split
  · exact h
  · cases msg with
    | request m =>
        simp only []
        split
        · exact h
        · exact h
    | notification m =>
        simp only []
        split
        · exact h
        · exact h
    | response m =>
        simp only []
        split
        · split
          · next hc => exact absurd h (by simp [hc.1])
          · exact h
        · exact h

theorem cacheMessage_initNotification_mono (st : ConnState) (msg : JSONRPCMessage)
    (n : JSONRPCNotification) (h : st.initNotification = some n) :
    (cacheMessageLocked st msg).initNotification = some n := by
  unfold cacheMessageLocked
  split
  · exact h
  · cases msg with
    | request m =>
        simp only []
        split
        · exact h
        · exact h
    | notification m =>
        simp only []
        split
        · next hc => exact absurd h (by simp [hc.1])
        · exact h
    | response m =>
        simp only []
        split
        · split
          · split
            · exact h
            · exact h
          · exact h
        · exact h

theorem cacheMessage_complete_fixed (st : ConnState) (msg : JSONRPCMessage)
    (h : initializedLocked st = true) : cacheMessageLocked st msg = st := by
  unfold cacheMessageLocked
  simp [h]

theorem cacheMessage_complete_mono (st : ConnState) (msg : JSONRPCMessage)
    (h : initializedLocked st = true) :
    initializedLocked (cacheMessageLocked st msg) = true := by
  rw [cacheMessage_complete_fixed st msg h]; exact h

/-- C6: the cached initialize triple is monotonically filled. For every
sequence of messages offered to the cache, each slot, once set, is never
overwritten or cleared, and once the triple is complete every further message
leaves it unchanged. -/
theorem cache_triple_monotone (st : ConnState) (msgs : List JSONRPCMessage) :
    (∀ q, st.initRequest = some q →
      (msgs.foldl cacheMessageLocked st).initRequest = some q) ∧
    (∀ r, st.initResponse = some r →
      (msgs.foldl cacheMessageLocked st).initResponse = some r) ∧
    (∀ n, st.initNotification = some n →
      (msgs.foldl cacheMessageLocked st).initNotification = some n) ∧
    (initializedLocked st = true → msgs.foldl cacheMessageLocked st = st) := by
  induction msgs generalizing st with
  | nil => exact ⟨fun q h => h, fun r h => h, fun n h => h, fun _ => rfl⟩
  | cons m rest ih =>
      refine ⟨?_, ?_, ?_, ?_⟩
      · intro q h
        exact (ih (cacheMessageLocked st m)).1 q (cacheMessage_initRequest_mono st m q h)
      · intro r h
        exact (ih (cacheMessageLocked st m)).2.1 r (cacheMessage_initResponse_mono st m r h)
      · intro n h
        exact (ih (cacheMessageLocked st m)).2.2.1 n
          (cacheMessage_initNotification_mono st m n h)
      · intro h
        have h1 : cacheMessageLocked st m = st := cacheMessage_complete_fixed st m h
        simp only [List.foldl_cons, h1]
        exact (ih st).2.2.2 h

/-- Concrete complete cached triple used by witnesses. -/
def exInitReq : JSONRPCRequest := ⟨.num 1, "initialize"⟩

/-- Concrete cached initialized notification used by witnesses. -/
def exNotif : JSONRPCNotification := ⟨"notifications/initialized"⟩

/-- Concrete cached server identity used by witnesses. -/
def exImpl : Implementation := ⟨"test-server", "1.0.0"⟩

/-- Concrete cached initialize result used by witnesses. -/
def exResult : InitializeResult := ⟨exImpl⟩

/-- Idle connection state with a complete cached triple and the replay flag
set, as after a first connect whose upstream has died. -/
def exReadySt : ConnState := ⟨none, true, some exInitReq, some exResult, some exNotif⟩

theorem cache_triple_monotone_witness :
    ([JSONRPCMessage.request ⟨.num 7, "initialize"⟩].foldl cacheMessageLocked exReadySt
        = exReadySt) ∧
    ([JSONRPCMessage.request ⟨.num 7, "initialize"⟩].foldl cacheMessageLocked exReadySt).initRequest
        = some exInitReq :=
  ⟨(cache_triple_monotone exReadySt [JSONRPCMessage.request ⟨.num 7, "initialize"⟩]).2.2.2
      (by decide),
   (cache_triple_monotone exReadySt [JSONRPCMessage.request ⟨.num 7, "initialize"⟩]).1
      exInitReq rfl⟩

/-- A message writer (mcputils.MessageWriter): a stateful sink that consumes a
message, updates the ambient state, and either succeeds or returns an error.
The explicit state component stands for the side effects a Go writer performs
when invoked. -/
def MessageWriter (σ : Type) : Type := σ → JSONRPCMessage → σ × Option String

/-- writer.go lines 59-66, MultiMessageWriter.WriteMessage: write the message
to each listed writer, one at a time, stopping at the first error and
returning it. -/
def multiWriteMessage {σ : Type} :
    List (MessageWriter σ) → σ → JSONRPCMessage → σ × Option String
  | [], s, _ => (s, none)
  | w :: rest, s, m =>
      match w s m with
      | (s2, some e) => (s2, some e)
      | (s2, none) => multiWriteMessage rest s2 m

/-- Observation log: which writer (by index) observed which message, in
order. -/
abbrev ObsLog : Type := List (Nat × JSONRPCMessage)

/-- An instrumented writer with index i and fixed outcome res: it records its
own invocation in the log, so observations of a message are visible in the
final state. -/
def logWriter (i : Nat) (res : Option String) : MessageWriter ObsLog :=
  fun log m => (log ++ [(i, m)], res)

/-- Instrumented writers for the given list of outcomes, indexed from a. -/
def logWriters : Nat → List (Option String) → List (MessageWriter ObsLog)
  | _, [] => []
  | a, res :: rest => logWriter a res :: logWriters (a + 1) rest

/-- The log produced when writers a, a+1, ..., a+k-1 each observe message m
exactly once, in index order. -/
def deliveredTo : Nat → Nat → JSONRPCMessage → ObsLog
  | _, 0, _ => []
  | a, k + 1, m => (a, m) :: deliveredTo (a + 1) k m

theorem multiWrite_all_ok (outs : List (Option String)) (a : Nat) (log : ObsLog)
    (m : JSONRPCMessage) (h : ∀ o ∈ outs, o = none) :
    multiWriteMessage (logWriters a outs) log m
      = (log ++ deliveredTo a outs.length m, none) := by
  induction outs generalizing a log with
  | nil => simp [logWriters, multiWriteMessage, deliveredTo]
  | cons o rest ih =>
      have ho : o = none := h o (List.mem_cons_self o rest)
      subst ho
      have hrest : ∀ o ∈ rest, o = none := fun o ho => h o (List.mem_cons_of_mem _ ho)
      simp only [logWriters, multiWriteMessage, logWriter]
      rw [ih (a + 1) (log ++ [(a, m)]) hrest]
      simp [deliveredTo, List.append_assoc]

theorem multiWrite_first_err (pre : List (Option String)) (e : String)
    (rest : List (Option String)) (a : Nat) (log : ObsLog) (m : JSONRPCMessage)
    (h : ∀ o ∈ pre, o = none) :
    multiWriteMessage (logWriters a (pre ++ some e :: rest)) log m
      = (log ++ deliveredTo a (pre.length + 1) m, some e) := by
  induction pre generalizing a log with
  | nil =>
      simp only [List.nil_append, logWriters, multiWriteMessage, logWriter]
      simp [deliveredTo]
  | cons o pre2 ih =>
      have ho : o = none := h o (List.mem_cons_self o pre2)
      subst ho
      have hpre : ∀ o ∈ pre2, o = none := fun o ho => h o (List.mem_cons_of_mem _ ho)
      simp only [List.cons_append, logWriters, multiWriteMessage, logWriter,
        List.append_eq]
      rw [ih (a + 1) (log ++ [(a, m)]) hpre]
      simp [deliveredTo, List.append_assoc, List.length_cons]

/-- C8: the fan-out writer delivers each message to each listed writer in
list order. If every writer succeeds, WriteMessage returns success and each
writer observed the message exactly once; if some writer fails, WriteMessage
returns that first error and no later writer observes the message. -/
theorem multi_writer_delivery (outs : List (Option String)) (m : JSONRPCMessage) :
    ((∀ o ∈ outs, o = none) →
      multiWriteMessage (logWriters 0 outs) [] m
        = (deliveredTo 0 outs.length m, none)) ∧
    (∀ pre e rest, outs = pre ++ some e :: rest → (∀ o ∈ pre, o = none) →
      multiWriteMessage (logWriters 0 outs) [] m
        = (deliveredTo 0 (pre.length + 1) m, some e)) := by
  constructor
  · intro h
    simpa using multiWrite_all_ok outs 0 [] m h
  · intro pre e rest hsplit hpre
    subst hsplit
    simpa using multiWrite_first_err pre e rest 0 [] m hpre

theorem multi_writer_delivery_witness :
    multiWriteMessage (logWriters 0 [none, some "boom"]) []
        (JSONRPCMessage.notification ⟨"x"⟩)
      = (deliveredTo 0 2 (JSONRPCMessage.notification ⟨"x"⟩), some "boom") :=
  (multi_writer_delivery [none, some "boom"] (JSONRPCMessage.notification ⟨"x"⟩)).2
    [none] "boom" [] rfl (by simp)

/-- The state threaded through the first-connect fan-out writer: the cached
triple state plus the log of messages that reached the raw upstream writer. -/
abbrev FanOutState : Type := ConnState × List JSONRPCMessage

/-- reconnect.go lines 172-175: the caching slot of the first-connect fan-out
writer. It offers the message to the cache and always returns nil. -/
def cacheWriter : MessageWriter FanOutState :=
  fun s m => ((cacheMessageLocked s.1 m, s.2), none)

/-- The raw upstream stdio writer, with its outcome supplied by the oracle
res: on success the message reaches the upstream. -/
def upstreamWriter (res : Option String) : MessageWriter FanOutState :=
  fun s m =>
    match res with
    | none => ((s.1, s.2 ++ [m]), none)
    | some e => (s, some e)

/-- reconnect.go lines 171-177: the fan-out writer installed on the first
connect, caching slot first, raw upstream writer second. -/
def firstConnWriter (res : Option String) : MessageWriter FanOutState :=
  multiWriteMessage [cacheWriter, upstreamWriter res]

/-- C9: the caching slot always returns nil, so a write through the
first-connect fan-out writer fails exactly when the raw upstream write fails,
the message is always offered to the cache, and it reaches the upstream
whenever the upstream write succeeds. -/
theorem first_connect_cache_never_fails (st : ConnState) (log : List JSONRPCMessage)
    (res : Option String) (m : JSONRPCMessage) :
    firstConnWriter res (st, log) m
      = ((cacheMessageLocked st m,
          match res with
          | none => log ++ [m]
          | some _ => log), res) := by
  cases res with
  | none => rfl
  | some e => rfl

/-- An event observed by an upstream connection: a frame written to it, a
frame read from it (ReadOneMessageFromStdioReader), or it being closed.
Modelled from the spec: the stdio frame codec of mcputils is repository code
not under src/, so frame writes and the single-frame read are abstracted to
these events. -/
inductive UpEvent where
  | wrote (m : JSONRPCMessage)
  | readFrame (m : JSONRPCMessage)
  | closed
deriving DecidableEq

/-- Outcomes of the external world during one WriteMessage call: whether the
dial succeeds, whether each frame write to the new upstream succeeds (none
means success), and the reply frame read during replay. -/
structure DialOracle where
  dialResult : Except String Unit
  writeInitRequestErr : Option String
  readReply : Except String JSONRPCMessage
  writeInitNotificationErr : Option String
  writeTriggerErr : Option String

/-- The taxonomy of errors a reconnecting write can return, one constructor
per distinct error site in reconnect.go. -/
inductive ProxyErr where
  | dialFailure (e : String)
  | notInitialized
  | writeFailed (e : String)
  | readReplyFailed (e : String)
  | replyNotResponse
  | replyIsError
  | replyIdMismatch (expected got : String)
  | replyNotInitializeResult (e : String)
  | serverIdentityChanged (expected got : Implementation)
deriving DecidableEq

/-- Rendering of a server identity inside error text. -/
def Implementation.render (i : Implementation) : String :=
  i.name ++ " " ++ i.version

/-- The error text carried by each ProxyErr, following the format strings of
reconnect.go (trace.Errorf and trace.CompareFailed calls). -/
def ProxyErr.message : ProxyErr → String
  | .dialFailure e => e
  | .notInitialized => "client has not initialized yet"
  | .writeFailed e => e
  | .readReplyFailed e => e
  | .replyNotResponse => "expected initialize response, got another message type"
  | .replyIsError => "expected initialize result but got error"
  | .replyIdMismatch expected got =>
      "expected initialize response with ID " ++ expected ++ ", got " ++ got
  | .replyNotInitializeResult e => e
  | .serverIdentityChanged expected got =>
      "server info has changed" ++
        (", expected " ++ expected.render ++ ", got " ++ got.render)

/-- reconnect.go lines 246-266, checkReplyResponseLocked: validate the reply
read during replay against the cached initialize request and result. The
checks run in source order: response shape, absence of an error, id equality
by canonical string form, initialize-result parse, serverInfo equality. -/
def checkReplyResponseLocked (initReq : JSONRPCRequest) (cached : InitializeResult)
    (msg : JSONRPCMessage) : Option ProxyErr :=
  match msg with
  | .response resp =>
      if resp.error.isSome then some .replyIsError
      else if resp.id.toString ≠ initReq.id.toString then
        some (.replyIdMismatch initReq.id.toString resp.id.toString)
      else
        match resp.getInitializeResult with
        | .error e => some (.replyNotInitializeResult e)
        | .ok newResult =>
            if newResult.serverInfo ≠ cached.serverInfo then
              some (.serverIdentityChanged cached.serverInfo newResult.serverInfo)
            else none
  | _ => some .replyNotResponse

/-- reconnect.go lines 218-244, replayInitializeLocked: require the cached
triple to be complete, write the cached initialize request to the new
upstream, read exactly one frame, check it, then write the cached initialized
notification. Returns the failure (if any) together with the events performed
on the new upstream; a failed frame write performs no event. -/
def replayInitializeLocked (st : ConnState) (o : DialOracle) :
    Option ProxyErr × List UpEvent :=
  match st.initRequest, st.initResponse, st.initNotification with
  | some q, some cached, some notif =>
      (match o.writeInitRequestErr with
      | some e => (some (.writeFailed e), [])
      | none =>
          match o.readReply with
          | .error e => (some (.readReplyFailed e), [.wrote (.request q)])
          | .ok reply =>
              match checkReplyResponseLocked q cached reply with
              | some e => (some e, [.wrote (.request q), .readFrame reply])
              | none =>
                  match o.writeInitNotificationErr with
                  | some e => (some (.writeFailed e),
                      [.wrote (.request q), .readFrame reply])
                  | none => (none,
                      [.wrote (.request q), .readFrame reply,
                       .wrote (.notification notif)]))
  | _, _, _ => (some .notInitialized, [])

/-- Result of getServerRequestWriterLocked: the writer obtained (or the
error), the updated connection state, and the events performed on the newly
dialed upstream (empty if no dial happened). -/
structure GetWriterOutcome where
  result : Except ProxyErr WriterKind
  state : ConnState
  events : List UpEvent

/-- reconnect.go lines 153-212, getServerRequestWriterLocked: return the
installed writer if present; otherwise dial, then either replay (closing the
new upstream and installing nothing on failure, installing the raw writer on
success) or, on the first connect, install the fan-out writer and set
replayOnNextConn. Construction of the server response reader is assumed to
succeed, as the source comment on line 181 states. -/
def getServerRequestWriterLocked (st : ConnState) (o : DialOracle) :
    GetWriterOutcome :=
  match st.serverRequestWriter with
  | some k => ⟨.ok k, st, []⟩
  | none =>
      match o.dialResult with
      | .error e => ⟨.error (.dialFailure e), st, []⟩
      | .ok _ =>
          if st.replayOnNextConn then
            match replayInitializeLocked st o with
            | (some e, evs) => ⟨.error e, st, evs ++ [.closed]⟩
            | (none, evs) =>
                ⟨.ok .raw, { st with serverRequestWriter := some .raw }, evs⟩
          else
            ⟨.ok .fanOut,
             { st with serverRequestWriter := some .fanOut, replayOnNextConn := true },
             []⟩

/-- Result of one WriteMessage call: the returned error (none on success),
the updated connection state, and the events performed on the upstream used
by the call. -/
structure WriteOutcome where
  result : Option ProxyErr
  state : ConnState
  upstreamEvents : List UpEvent

/-- Delegating the message to the installed writer: the raw writer only
writes the frame upstream; the first-connect fan-out writer first offers the
message to the cache (which always succeeds) and then writes upstream. A
failed upstream write performs no event. -/
def applyWriter (k : WriterKind) (st : ConnState) (evs : List UpEvent)
    (writeErr : Option String) (msg : JSONRPCMessage) : WriteOutcome :=
  match k with
  | .raw =>
      match writeErr with
      | none => ⟨none, st, evs ++ [.wrote msg]⟩
      | some e => ⟨some (.writeFailed e), st, evs⟩
  | .fanOut =>
      match writeErr with
      | none => ⟨none, cacheMessageLocked st msg, evs ++ [.wrote msg]⟩
      | some e => ⟨some (.writeFailed e), cacheMessageLocked st msg, evs⟩

/-- reconnect.go lines 142-151, WriteMessage: under the mutex, obtain the
server request writer (dialing and replaying if needed) and deliver the
message to it. -/
def writeMessage (st : ConnState) (o : DialOracle) (msg : JSONRPCMessage) :
    WriteOutcome :=
  match getServerRequestWriterLocked st o with
  | ⟨.error e, st2, evs⟩ => ⟨some e, st2, evs⟩
  | ⟨.ok k, st2, evs⟩ => applyWriter k st2 evs o.writeTriggerErr msg

/-- A changed server identity used by witnesses: same name, new version. -/
def exImpl2 : Implementation := ⟨"test-server", "2.0.0"⟩

/-- A compliant replay reply: matching id, no error, cached identity. -/
def exGoodReply : JSONRPCResponse := ⟨.num 1, none, .initResult exResult⟩

/-- Oracle for a fully successful reconnect. -/
def exOracleOk : DialOracle := ⟨.ok (), none, .ok (.response exGoodReply), none, none⟩

/-- The client message that triggers the reconnect in the witnesses. -/
def exMsg : JSONRPCMessage := .request ⟨.num 2, "tools/call"⟩

/-- A replay reply with matching id and no error but a changed identity. -/
def exReplyV2 : JSONRPCResponse := ⟨.num 1, none, .initResult ⟨exImpl2⟩⟩

/-- Oracle for a reconnect against a server of a different version. -/
def exOracleV2 : DialOracle := ⟨.ok (), none, .ok (.response exReplyV2), none, none⟩

/-- A replay reply that both carries an error and has a mismatched id. -/
def exErrReply : JSONRPCResponse := ⟨.num 2, some ⟨-32000, "boom"⟩, .initResult exResult⟩

/-- Oracle delivering exErrReply during replay. -/
def exOracleErrId : DialOracle := ⟨.ok (), none, .ok (.response exErrReply), none, none⟩

/-- A replay reply with no error but a mismatched id. -/
def exWrongIdReply : JSONRPCResponse := ⟨.num 5, none, .initResult exResult⟩

/-- Oracle delivering exWrongIdReply during replay. -/
def exOracleWrongId : DialOracle := ⟨.ok (), none, .ok (.response exWrongIdReply), none, none⟩

/-- Idle connection state before the client has sent initialize, with the
replay flag set. -/
def exEmptySt : ConnState := ⟨none, true, none, none, none⟩

/-- C1: on a reconnect whose replayed initialize reply is a well-formed
response with the cached id and no error but a different serverInfo,
WriteMessage fails with the ServerIdentityChanged error, whose text starts
with "server info has changed"; the new upstream is closed and no writer is
installed. -/
theorem reconnect_server_identity_changed
    (st : ConnState) (o : DialOracle) (msg : JSONRPCMessage)
    (q : JSONRPCRequest) (cached : InitializeResult) (notif : JSONRPCNotification)
    (newResult : InitializeResult) (reply : JSONRPCResponse)
    (hw : st.serverRequestWriter = none) (hflag : st.replayOnNextConn = true)
    (hq : st.initRequest = some q) (hres : st.initResponse = some cached)
    (hnot : st.initNotification = some notif)
    (hdial : o.dialResult = .ok ()) (hw1 : o.writeInitRequestErr = none)
    (hread : o.readReply = .ok (.response reply))
    (herr : reply.error = none)
    (hid : reply.id.toString = q.id.toString)
    (hparse : reply.getInitializeResult = .ok newResult)
    (hinfo : newResult.serverInfo ≠ cached.serverInfo) :
    (writeMessage st o msg).result
        = some (ProxyErr.serverIdentityChanged cached.serverInfo newResult.serverInfo) ∧
    (∃ t, ProxyErr.message (ProxyErr.serverIdentityChanged cached.serverInfo
        newResult.serverInfo) = "server info has changed" ++ t) ∧
    UpEvent.closed ∈ (writeMessage st o msg).upstreamEvents ∧
    (writeMessage st o msg).state.serverRequestWriter = none := by
  have hcheck : checkReplyResponseLocked q cached (.response reply)
      = some (.serverIdentityChanged cached.serverInfo newResult.serverInfo) := by
    simp [checkReplyResponseLocked, herr, hid, hparse, hinfo]
  have hwm : writeMessage st o msg
      = ⟨some (.serverIdentityChanged cached.serverInfo newResult.serverInfo), st,
         [.wrote (.request q), .readFrame (.response reply), .closed]⟩ := by
    simp [writeMessage, getServerRequestWriterLocked, replayInitializeLocked,
      hw, hflag, hq, hres, hnot, hdial, hw1, hread, hcheck]
  refine ⟨by rw [hwm], ⟨_, rfl⟩, by rw [hwm]; simp, by rw [hwm]; exact hw⟩

theorem reconnect_server_identity_changed_witness :
    (writeMessage exReadySt exOracleV2 exMsg).result
        = some (ProxyErr.serverIdentityChanged exImpl exImpl2) ∧
    (writeMessage exReadySt exOracleV2 exMsg).state.serverRequestWriter = none :=
  ⟨(reconnect_server_identity_changed exReadySt exOracleV2 exMsg exInitReq exResult
      exNotif ⟨exImpl2⟩ exReplyV2 rfl rfl rfl rfl rfl rfl rfl rfl rfl rfl rfl
      (by decide)).1,
   (reconnect_server_identity_changed exReadySt exOracleV2 exMsg exInitReq exResult
      exNotif ⟨exImpl2⟩ exReplyV2 rfl rfl rfl rfl rfl rfl rfl rfl rfl rfl rfl
      (by decide)).2.2.2⟩

/-- C2: every write that successfully establishes a new upstream while the
replay flag is set performs, on that upstream and in this order, the cached
initialize request, exactly one frame read (the initialize response), the
cached initialized notification, and only then the triggering client
message. -/
theorem replay_precedes_new_traffic
    (st : ConnState) (o : DialOracle) (msg : JSONRPCMessage)
    (q : JSONRPCRequest) (cached : InitializeResult) (notif : JSONRPCNotification)
    (hw : st.serverRequestWriter = none) (hflag : st.replayOnNextConn = true)
    (hq : st.initRequest = some q) (hres : st.initResponse = some cached)
    (hnot : st.initNotification = some notif)
    (hok : (writeMessage st o msg).result = none) :
    ∃ reply, o.readReply = .ok (.response reply) ∧
      (writeMessage st o msg).upstreamEvents =
        [.wrote (.request q), .readFrame (.response reply),
         .wrote (.notification notif), .wrote msg] := by
  cases hdial : o.dialResult with
  | error e =>
      exfalso
      simp [writeMessage, getServerRequestWriterLocked, hw, hdial] at hok
  | ok u =>
      cases u
      cases hw1 : o.writeInitRequestErr with
      | some e =>
          exfalso
          simp [writeMessage, getServerRequestWriterLocked, replayInitializeLocked,
            hw, hflag, hq, hres, hnot, hdial, hw1] at hok
      | none =>
          cases hread : o.readReply with
          | error e =>
              exfalso
              simp [writeMessage, getServerRequestWriterLocked, replayInitializeLocked,
                hw, hflag, hq, hres, hnot, hdial, hw1, hread] at hok
          | ok reply =>
              cases hchk : checkReplyResponseLocked q cached reply with
              | some e =>
                  exfalso
                  simp [writeMessage, getServerRequestWriterLocked, replayInitializeLocked,
                    hw, hflag, hq, hres, hnot, hdial, hw1, hread, hchk] at hok
              | none =>
                  cases reply with
                  | request rq => exact absurd hchk (by simp [checkReplyResponseLocked])
                  | notification nn => exact absurd hchk (by simp [checkReplyResponseLocked])
                  | response r =>
                      cases hwn : o.writeInitNotificationErr with
                      | some e =>
                          exfalso
                          simp [writeMessage, getServerRequestWriterLocked,
                            replayInitializeLocked, hw, hflag, hq, hres, hnot, hdial,
                            hw1, hread, hchk, hwn] at hok
                      | none =>
                          cases hwt : o.writeTriggerErr with
                          | some e =>
                              exfalso
                              simp [writeMessage, getServerRequestWriterLocked,
                                replayInitializeLocked, applyWriter, hw, hflag, hq,
                                hres, hnot, hdial, hw1, hread, hchk, hwn, hwt] at hok
                          | none =>
                              refine ⟨r, rfl, ?_⟩
                              simp [writeMessage, getServerRequestWriterLocked,
                                replayInitializeLocked, applyWriter, hw, hflag, hq,
                                hres, hnot, hdial, hw1, hread, hchk, hwn, hwt]

theorem replay_precedes_new_traffic_witness :
    ∃ reply, exOracleOk.readReply = .ok (.response reply) ∧
      (writeMessage exReadySt exOracleOk exMsg).upstreamEvents =
        [.wrote (.request exInitReq), .readFrame (.response reply),
         .wrote (.notification exNotif), .wrote exMsg] :=
  replay_precedes_new_traffic exReadySt exOracleOk exMsg exInitReq exResult exNotif
    rfl rfl rfl rfl rfl (by decide)

/-- C3: a reconnecting write with an incomplete cached triple fails with the
"client has not initialized yet" error, closes the new upstream, installs no
writer, and leaves the whole connection state (cached slots and replay flag)
unchanged. -/
theorem reconnect_not_initialized
    (st : ConnState) (o : DialOracle) (msg : JSONRPCMessage)
    (hw : st.serverRequestWriter = none) (hflag : st.replayOnNextConn = true)
    (hdial : o.dialResult = .ok ()) (hinit : initializedLocked st = false) :
    (writeMessage st o msg).result = some ProxyErr.notInitialized ∧
    ProxyErr.message ProxyErr.notInitialized = "client has not initialized yet" ∧
    (writeMessage st o msg).upstreamEvents = [UpEvent.closed] ∧
    (writeMessage st o msg).state = st := by
  have hrep : replayInitializeLocked st o = (some .notInitialized, []) := by
    unfold replayInitializeLocked
    cases hq : st.initRequest <;> cases hr2 : st.initResponse <;>
      cases hn : st.initNotification <;>
      first
        | rfl
        | (exfalso; rw [initializedLocked, hq, hr2, hn] at hinit; simp at hinit)
  have hwm : writeMessage st o msg = ⟨some .notInitialized, st, [.closed]⟩ := by
    simp [writeMessage, getServerRequestWriterLocked, hw, hflag, hdial, hrep]
  exact ⟨by rw [hwm], rfl, by rw [hwm], by rw [hwm]⟩

theorem reconnect_not_initialized_witness :
    (writeMessage exEmptySt exOracleOk exMsg).result = some ProxyErr.notInitialized ∧
    (writeMessage exEmptySt exOracleOk exMsg).state = exEmptySt :=
  ⟨(reconnect_not_initialized exEmptySt exOracleOk exMsg rfl rfl rfl (by decide)).1,
   (reconnect_not_initialized exEmptySt exOracleOk exMsg rfl rfl rfl (by decide)).2.2.2⟩

/-- C4 (amended): a replay reply that is a Response carrying no error and
whose id, by canonical string form, differs from the cached initialize
request id fails the reconnecting write with the ReplyIdMismatch error, and
the new upstream is closed. (The unamended claim, without the no-error
condition, is refuted by reply_id_mismatch_counterexample: the code checks
the error field before the id.) -/
theorem reconnect_reply_id_mismatch
    (st : ConnState) (o : DialOracle) (msg : JSONRPCMessage)
    (q : JSONRPCRequest) (cached : InitializeResult) (notif : JSONRPCNotification)
    (reply : JSONRPCResponse)
    (hw : st.serverRequestWriter = none) (hflag : st.replayOnNextConn = true)
    (hq : st.initRequest = some q) (hres : st.initResponse = some cached)
    (hnot : st.initNotification = some notif)
    (hdial : o.dialResult = .ok ()) (hw1 : o.writeInitRequestErr = none)
    (hread : o.readReply = .ok (.response reply))
    (herr : reply.error = none)
    (hid : reply.id.toString ≠ q.id.toString) :
    (writeMessage st o msg).result
        = some (ProxyErr.replyIdMismatch q.id.toString reply.id.toString) ∧
    UpEvent.closed ∈ (writeMessage st o msg).upstreamEvents := by
  have hcheck : checkReplyResponseLocked q cached (.response reply)
      = some (.replyIdMismatch q.id.toString reply.id.toString) := by
    simp [checkReplyResponseLocked, herr, hid]
  have hwm : writeMessage st o msg
      = ⟨some (.replyIdMismatch q.id.toString reply.id.toString), st,
         [.wrote (.request q), .readFrame (.response reply), .closed]⟩ := by
    simp [writeMessage, getServerRequestWriterLocked, replayInitializeLocked,
      hw, hflag, hq, hres, hnot, hdial, hw1, hread, hcheck]
  exact ⟨by rw [hwm], by rw [hwm]; simp⟩

theorem reconnect_reply_id_mismatch_witness :
    (writeMessage exReadySt exOracleWrongId exMsg).result
        = some (ProxyErr.replyIdMismatch (RequestId.toString (.num 1))
            (RequestId.toString (.num 5))) ∧
    UpEvent.closed ∈ (writeMessage exReadySt exOracleWrongId exMsg).upstreamEvents :=
  reconnect_reply_id_mismatch exReadySt exOracleWrongId exMsg exInitReq exResult
    exNotif exWrongIdReply rfl rfl rfl rfl rfl rfl rfl rfl rfl (by decide)

/-- C4 (counterexample to the unamended claim): a replay reply that is a
Response whose canonical id differs from the cached request id but which also
carries an error fails with the ReplyIsError error, not ReplyIdMismatch,
because checkReplyResponseLocked tests the error field before the id. -/
theorem reply_id_mismatch_counterexample :
    RequestId.toString exErrReply.id ≠ RequestId.toString exInitReq.id ∧
    (writeMessage exReadySt exOracleErrId exMsg).result = some ProxyErr.replyIsError ∧
    ∀ s1 s2, (writeMessage exReadySt exOracleErrId exMsg).result
        ≠ some (ProxyErr.replyIdMismatch s1 s2) := by
  have hres : (writeMessage exReadySt exOracleErrId exMsg).result
      = some ProxyErr.replyIsError := by decide
  refine ⟨by decide, hres, ?_⟩
  intro s1 s2 h
  rw [hres] at h
  simp at h

/-- Lifecycle phase of a dialed upstream connection: opened (live), dead (the
server side died but the reader has not yet observed it), or closed by the
proxy. -/
inductive ConnPhase where
  | opened
  | dead
  | closed
deriving DecidableEq

/-- A dialed upstream connection: its phase, whether a server response reader
was started on it (reconnect.go line 209, only after a successful install),
and whether that reader has already fired its OnClose callback. -/
structure UpConn where
  phase : ConnPhase
  hasReader : Bool
  onCloseFired : Bool
deriving DecidableEq

/-- Global state of the connection-slot protocol: every upstream dialed so
far (indexed in dial order) and the index held by the serverRequestWriter
slot, if any. -/
structure Sys where
  conns : List UpConn
  slot : Option Nat
deriving DecidableEq

/-- The initial state: no upstream dialed, no writer installed. -/
def Sys.init : Sys := ⟨[], none⟩

/-- The interleavings of writes and reader-close callbacks, as reconnect.go
implements them under the connection mutex. A write dials only when the slot
is empty (lines 153-159); a successful install starts a reader on the new
upstream (line 209); a failed replay closes the new upstream without starting
a reader (lines 164-168); OnClose is modelled from the spec (the message
reader is repository code not under src/): it fires exactly once per reader,
only after its stream is no longer open, and clears the slot under the mutex
(lines 186-194). -/
inductive Step : Sys → Sys → Prop where
  | connect (s : Sys) (h : s.slot = none) :
      Step s ⟨s.conns ++ [⟨.opened, true, false⟩], some s.conns.length⟩
  | connectReplayFail (s : Sys) (h : s.slot = none) :
      Step s ⟨s.conns ++ [⟨.closed, false, false⟩], none⟩
  | serverDies (s : Sys) (i : Nat) (c : UpConn) (h : s.conns[i]? = some c)
      (hp : c.phase = .opened) :
      Step s ⟨s.conns.set i { c with phase := .dead }, s.slot⟩
  | readerClose (s : Sys) (i : Nat) (c : UpConn) (h : s.conns[i]? = some c)
      (hr : c.hasReader = true) (hf : c.onCloseFired = false)
      (hp : c.phase ≠ .opened) :
      Step s ⟨s.conns.set i { c with onCloseFired := true }, none⟩

/-- States reachable from the initial state by writes and reader-close
callbacks. -/
def Reachable (s : Sys) : Prop := Relation.ReflTransGen Step Sys.init s

/-- Upstream i is live (open) in state s. -/
def Sys.liveAt (s : Sys) (i : Nat) : Prop :=
  ∃ c, s.conns[i]? = some c ∧ c.phase = .opened

/-- The inductive invariant: every reader that has not yet fired OnClose
belongs to the currently installed upstream, and every open upstream is the
currently installed one. -/
def SysInv (s : Sys) : Prop :=
  (∀ i c, s.conns[i]? = some c → c.hasReader = true → c.onCloseFired = false →
    s.slot = some i) ∧
  (∀ i c, s.conns[i]? = some c → c.phase = .opened → s.slot = some i)

theorem getElem_concat_cases {α : Type} (l : List α) (x : α) (j : Nat) (c : α)
    (h : (l ++ [x])[j]? = some c) :
    (j < l.length ∧ l[j]? = some c) ∨ (j = l.length ∧ c = x) := by
  rcases Nat.lt_trichotomy j l.length with hlt | heq | hgt
  · refine Or.inl ⟨hlt, ?_⟩
    rw [List.getElem?_append] at h
    simpa [hlt] using h
  · subst heq
    rw [List.getElem?_concat_length] at h
    exact Or.inr ⟨rfl, (Option.some.inj h).symm⟩
  · exfalso
    have hlen : (l ++ [x]).length ≤ j := by
      simp only [List.length_append, List.length_singleton]
      omega
    rw [List.getElem?_eq_none hlen] at h
    exact Option.noConfusion h

theorem getElem_set_cases {α : Type} (l : List α) (i j : Nat) (x : α) (c : α)
    (h : (l.set i x)[j]? = some c) :
    (j = i ∧ c = x ∧ i < l.length) ∨ (j ≠ i ∧ l[j]? = some c) := by
  by_cases hji : j = i
  · subst hji
    have hlen : j < l.length := by
      have hb := (List.getElem?_eq_some.mp h).1
      simpa [List.length_set] using hb
    rw [List.getElem?_set_self hlen] at h
    exact Or.inl ⟨rfl, (Option.some.inj h).symm, hlen⟩
  · refine Or.inr ⟨hji, ?_⟩
    rwa [List.getElem?_set_ne (fun hh => hji hh.symm)] at h

theorem sysInv_preserved {s s2 : Sys} (hinv : SysInv s) (hstep : Step s s2) :
    SysInv s2 := by
  cases hstep with
  | connect h =>
      constructor
      · intro j c hc hr hf
        rcases getElem_concat_cases _ _ _ _ hc with ⟨_, hold⟩ | ⟨heq, _⟩
        · exact absurd (hinv.1 j c hold hr hf) (by simp [h])
        · simp [heq]
      · intro j c hc hp
        rcases getElem_concat_cases _ _ _ _ hc with ⟨_, hold⟩ | ⟨heq, _⟩
        · exact absurd (hinv.2 j c hold hp) (by simp [h])
        · simp [heq]
  | connectReplayFail h =>
      constructor
      · intro j c hc hr hf
        rcases getElem_concat_cases _ _ _ _ hc with ⟨_, hold⟩ | ⟨_, hcx⟩
        · exact absurd (hinv.1 j c hold hr hf) (by simp [h])
        · exact absurd hr (by simp [hcx])
      · intro j c hc hp
        rcases getElem_concat_cases _ _ _ _ hc with ⟨_, hold⟩ | ⟨_, hcx⟩
        · exact absurd (hinv.2 j c hold hp) (by simp [h])
        · exact absurd hp (by simp [hcx])
  | serverDies i c h hp =>
      constructor
      · intro j c2 hc2 hr2 hf2
        rcases getElem_set_cases _ _ _ _ _ hc2 with ⟨hji, hc2x, _⟩ | ⟨_, hold⟩
        · subst hji
          have hr3 : c.hasReader = true := by rw [hc2x] at hr2; exact hr2
          have hf3 : c.onCloseFired = false := by rw [hc2x] at hf2; exact hf2
          exact hinv.1 j c h hr3 hf3
        · exact hinv.1 j c2 hold hr2 hf2
      · intro j c2 hc2 hp2
        rcases getElem_set_cases _ _ _ _ _ hc2 with ⟨hji, hc2x, _⟩ | ⟨_, hold⟩
        · exact absurd hp2 (by simp [hc2x])
        · exact hinv.2 j c2 hold hp2
  | readerClose i c h hr hf hp =>
      constructor
      · intro j c2 hc2 hr2 hf2
        exfalso
        rcases getElem_set_cases _ _ _ _ _ hc2 with ⟨hji, hc2x, _⟩ | ⟨hji, hold⟩
        · rw [hc2x] at hf2
          simp at hf2
        · have h1 := hinv.1 j c2 hold hr2 hf2
          have h2 := hinv.1 i c h hr hf
          rw [h2] at h1
          exact hji (Option.some.inj h1).symm
      · intro j c2 hc2 hp2
        exfalso
        rcases getElem_set_cases _ _ _ _ _ hc2 with ⟨hji, hc2x, _⟩ | ⟨hji, hold⟩
        · subst hji
          apply hp
          rw [hc2x] at hp2
          exact hp2
        · have h1 := hinv.2 j c2 hold hp2
          have h2 := hinv.1 i c h hr hf
          rw [h2] at h1
          exact hji (Option.some.inj h1).symm

theorem sysInv_reachable {s : Sys} (h : Reachable s) : SysInv s := by
  induction h with
  | refl =>
      exact ⟨fun i c hc => by simp [Sys.init] at hc,
             fun i c hc => by simp [Sys.init] at hc⟩
  | tail _ hstep ih => exact sysInv_preserved ih hstep

/-- C5: at most one upstream connection is live at any instant. In every
state reachable by interleaving writes (which dial only when the slot is
empty) and reader-close callbacks (which clear the slot under the mutex),
any two live upstreams coincide. -/
theorem at_most_one_live_upstream (s : Sys) (h : Reachable s) (i j : Nat)
    (hi : s.liveAt i) (hj : s.liveAt j) : i = j := by
  have hinv := sysInv_reachable h
  obtain ⟨c, hc, hp⟩ := hi
  obtain ⟨c2, hc2, hp2⟩ := hj
  have h1 := hinv.2 i c hc hp
  have h2 := hinv.2 j c2 hc2 hp2
  rw [h1] at h2
  exact Option.some.inj h2

/-- The state after the first connect: one live upstream, installed. -/
def exSys1 : Sys := ⟨[⟨.opened, true, false⟩], some 0⟩

theorem at_most_one_live_upstream_witness :
    Sys.liveAt exSys1 0 ∧ 0 = 0 :=
  ⟨⟨⟨.opened, true, false⟩, rfl, rfl⟩,
   at_most_one_live_upstream exSys1
     (Relation.ReflTransGen.single (Step.connect Sys.init rfl)) 0 0
     ⟨⟨.opened, true, false⟩, rfl, rfl⟩ ⟨⟨.opened, true, false⟩, rfl, rfl⟩⟩

/-- Modelled from the spec: mcp.NewJSONRPCError is third-party library code;
per the spec the synthesized error response carries the original request id,
the code, the user-visible message, and the underlying error as data. -/
structure JSONRPCErrorResponse where
  id : RequestId
  code : Int
  message : String
  data : String
deriving DecidableEq

/-- Constructor of a synthesized JSON-RPC error response. -/
def newJSONRPCError (id : RequestId) (code : Int) (message : String)
    (data : String) : JSONRPCErrorResponse :=
  ⟨id, code, message, data⟩

/-- mcp.INTERNAL_ERROR, the JSON-RPC internal error code. -/
def INTERNAL_ERROR : Int := -32603

/-- reconnect.go lines 105-113, the OnRequest callback of the proxy driver:
forward the request to the server connection; on failure, synthesize a
JSON-RPC error response for the request id from the MakeReconnectUserMessage
hook and write it back to the client, returning the client-write result
(the callback returns instead of terminating the proxy). The outcomes of the
forward and of the client write are supplied as oracles. -/
def onClientRequest (makeReconnectUserMessage : String → String)
    (serverWriteErr : Option String) (clientWriteErr : Option String)
    (req : JSONRPCRequest) : List JSONRPCErrorResponse × Option String :=
  match serverWriteErr with
  | none => ([], none)
  | some e =>
      ([newJSONRPCError req.id INTERNAL_ERROR (makeReconnectUserMessage e) e],
       clientWriteErr)

/-- C7: when forwarding a client request upstream fails, the driver writes
back exactly one JSON-RPC error response, with the original request id, code
-32603, the message produced by the MakeReconnectUserMessage hook on the
write error, and the underlying error as data; the callback returns the
client-write result rather than terminating. -/
theorem forward_failure_synthesizes_error
    (mk : String → String) (e : String) (cw : Option String) (req : JSONRPCRequest) :
    onClientRequest mk (some e) cw req
        = ([newJSONRPCError req.id INTERNAL_ERROR (mk e) e], cw) ∧
    (newJSONRPCError req.id INTERNAL_ERROR (mk e) e).id = req.id ∧
    (newJSONRPCError req.id INTERNAL_ERROR (mk e) e).code = -32603 ∧
    (newJSONRPCError req.id INTERNAL_ERROR (mk e) e).message = mk e ∧
    (newJSONRPCError req.id INTERNAL_ERROR (mk e) e).data = e :=
  ⟨rfl, rfl, rfl, rfl, rfl⟩

/-- reconnect.go lines 200-203, the OnResponse callback of the server-side
reader: offer the response to the cache (whose outcome is not consulted) and
forward the response to the client writer, returning the client-write
result. -/
def onServerResponse (st : ConnState) (clientWriteErr : Option String)
    (resp : JSONRPCResponse) : ConnState × List JSONRPCMessage × Option String :=
  (cacheMessageLocked st (.response resp), [.response resp], clientWriteErr)

/-- C10: a response from the upstream is always forwarded to the client
regardless of the cache outcome; in particular a response whose id matches
the cached initialize request id but which fails to parse as an initialize
result is still forwarded while the initResponse slot stays empty. -/
theorem response_forwarded_regardless_of_cache
    (st : ConnState) (cw : Option String) (resp : JSONRPCResponse)
    (q : JSONRPCRequest) (e : String)
    (hq : st.initRequest = some q)
    (hid : q.id.toString = resp.id.toString)
    (hnone : st.initResponse = none)
    (hparse : resp.getInitializeResult = .error e) :
    (∀ st2 cw2 r2, (onServerResponse st2 cw2 r2).2.1 = [.response r2]) ∧
    (onServerResponse st cw resp).2.1 = [.response resp] ∧
    ((onServerResponse st cw resp).1).initResponse = none := by
  refine ⟨fun _ _ _ => rfl, rfl, ?_⟩
  have hni : initializedLocked st = false := by
    simp [initializedLocked, hnone]
  simp [onServerResponse, cacheMessageLocked, hni, hq, hnone, hid, hparse]

/-- Cache state with only the initialize request and notification slots
filled. -/
def exPartialSt : ConnState := ⟨none, true, some exInitReq, none, some exNotif⟩

/-- A response with the cached id whose payload is not an initialize
result. -/
def exBadPayloadResp : JSONRPCResponse := ⟨.num 1, none, .otherResult⟩

theorem response_forwarded_regardless_of_cache_witness :
    (onServerResponse exPartialSt none exBadPayloadResp).2.1
        = [.response exBadPayloadResp] ∧
    ((onServerResponse exPartialSt none exBadPayloadResp).1).initResponse = none :=
  ⟨(response_forwarded_regardless_of_cache exPartialSt none exBadPayloadResp
      exInitReq "response does not carry an initialize result"
      rfl rfl rfl rfl).2.1,
   (response_forwarded_regardless_of_cache exPartialSt none exBadPayloadResp
      exInitReq "response does not carry an initialize result"
      rfl rfl rfl rfl).2.2⟩
